import Mathlib

/-!
Verification development for the "chat with your PDF" front end.

The definitions below are a shallow embedding of the repository's core:
the application state store and its reducer (`AppContext`), the upload
flow controller (`FileUpload`), the chat flow controller
(`ChatInterface` / `useChat`), citation extraction, render-time citation
deduplication, citation-click navigation (`CitationLink`), and the HTTP
gateway's error-normalization policy (`services/api`).

Effectful JavaScript functions are embedded as pure functions returning
an explicit list of effects (gateway calls, dispatched actions, local
state setters); the asynchronous gateway outcome is passed in as an
`Except` value.
-/

set_option autoImplicit false

namespace NotebookLM

/-! ## Constants (src/utils/constants.js) -/

def MAX_FILE_SIZE : Nat := 10 * 1024 * 1024

def ALLOWED_FILE_TYPES : List String := ["application/pdf"]

def MAX_MESSAGE_LENGTH : Nat := 1000

namespace ERROR_MESSAGES

def FILE_TOO_LARGE : String :=
  "File size must be less than " ++ toString (MAX_FILE_SIZE / (1024 * 1024)) ++ "MB"

def INVALID_FILE_TYPE : String := "Only PDF files are allowed"

def UPLOAD_FAILED : String := "Failed to upload file. Please try again."

def CHAT_FAILED : String := "Failed to send message. Please try again."

end ERROR_MESSAGES

namespace MESSAGE_TYPES

def USER : String := "user"

def ASSISTANT : String := "assistant"

def SYSTEM : String := "system"

def ERROR : String := "error"

end MESSAGE_TYPES

/-! ## Data model -/

/-- A citation object; `page`, `section` (here `sectionLabel`, since
`section` is a Lean keyword), `text`, `confidence` and `type` are all
optional fields on the JavaScript object (absent = `none`). -/
structure Citation where
  page : Option Nat
  sectionLabel : Option String
  text : Option String
  confidence : Option Rat
  type : Option String
  deriving DecidableEq, Repr

structure TokenUsage where
  prompt : Nat
  completion : Nat
  total : Nat
  deriving DecidableEq, Repr

/-- A chat message as built by the controllers; `type` is one of the
`MESSAGE_TYPES` strings, `citations` is absent on user/error messages. -/
structure ChatMessage where
  id : Nat
  type : String
  content : String
  citations : Option (List Citation)
  timestamp : String
  tokenUsage : Option TokenUsage
  deriving DecidableEq, Repr

/-- The local file handle selected or dropped by the user. -/
structure FileHandle where
  name : String
  size : Nat
  type : String
  lastModified : Nat
  deriving DecidableEq, Repr

/-- The single application state tree (AppContext `initialState` shape). -/
structure AppState where
  pdfFile : Option FileHandle
  pdfDocument : Option Nat
  currentPage : Nat
  totalPages : Nat
  chatMessages : List ChatMessage
  isLoading : Bool
  sessionId : Option String
  error : Option String
  citations : List Citation
  deriving DecidableEq, Repr

def initialState : AppState :=
  { pdfFile := none
    pdfDocument := none
    currentPage := 1
    totalPages := 0
    chatMessages := []
    isLoading := false
    sessionId := none
    error := none
    citations := [] }

/-- The action set of the store, one constructor per `actionTypes` entry,
carrying the payload each dispatch site supplies. -/
inductive Action where
  | SET_PDF_FILE (payload : Option FileHandle)
  | SET_PDF_DOCUMENT (payload : Option Nat)
  | SET_CURRENT_PAGE (payload : Nat)
  | SET_TOTAL_PAGES (payload : Nat)
  | ADD_CHAT_MESSAGE (payload : ChatMessage)
  | SET_LOADING (payload : Bool)
  | SET_SESSION_ID (payload : Option String)
  | SET_ERROR (payload : Option String)
  | CLEAR_ERROR
  | ADD_CITATION (payload : Citation)
  | CLEAR_CHAT
  | RESET_STATE
  deriving DecidableEq, Repr

/-- The pure reducer of the store (`appReducer` in AppContext). The
JavaScript `default` branch returning `state` is unreachable here because
`Action` is a closed type covering exactly the recognized action types. -/
def appReducer (state : AppState) (action : Action) : AppState :=
  match action with
  | .SET_PDF_FILE payload => { state with pdfFile := payload }
  | .SET_PDF_DOCUMENT payload => { state with pdfDocument := payload }
  | .SET_CURRENT_PAGE payload => { state with currentPage := payload }
  | .SET_TOTAL_PAGES payload => { state with totalPages := payload }
  | .ADD_CHAT_MESSAGE payload =>
      { state with chatMessages := state.chatMessages ++ [payload] }
  | .SET_LOADING payload => { state with isLoading := payload }
  | .SET_SESSION_ID payload => { state with sessionId := payload }
  | .SET_ERROR payload => { state with error := payload, isLoading := false }
  | .CLEAR_ERROR => { state with error := none }
  | .ADD_CITATION payload =>
      { state with citations := state.citations ++ [payload] }
  | .CLEAR_CHAT =>
      { state with chatMessages := [], citations := [], error := none }
  | .RESET_STATE => initialState

end NotebookLM

namespace NotebookLM

/-! ## Claim C3 -/

/-- Claim C3: dispatching CLEAR_CHAT yields a state with
`chatMessages = []`, `citations = []` and `error = null`, while
`pdfFile`, `sessionId`, `pdfDocument`, `currentPage`, `totalPages` and
`isLoading` are all unchanged from the prior state. -/
theorem clear_chat_clears_transcript_preserves_rest (s : AppState) :
    (appReducer s .CLEAR_CHAT).chatMessages = [] ∧
    (appReducer s .CLEAR_CHAT).citations = [] ∧
    (appReducer s .CLEAR_CHAT).error = none ∧
    (appReducer s .CLEAR_CHAT).pdfFile = s.pdfFile ∧
    (appReducer s .CLEAR_CHAT).sessionId = s.sessionId ∧
    (appReducer s .CLEAR_CHAT).pdfDocument = s.pdfDocument ∧
    (appReducer s .CLEAR_CHAT).currentPage = s.currentPage ∧
    (appReducer s .CLEAR_CHAT).totalPages = s.totalPages ∧
    (appReducer s .CLEAR_CHAT).isLoading = s.isLoading := by
  simp [appReducer]

/-! ## Claim C1 -/

/-- A prior state with an error string and the loading flag raised,
used to exercise full-state transitions. -/
def busyErrorState : AppState :=
  { initialState with error := some "boom", isLoading := true }

/-- Claim C1 (counterexample): the claim says no action other than
SET_ERROR both sets `error` and changes `isLoading`; but RESET_STATE,
which is not SET_ERROR for any payload, replaces the whole state with
the defaults and therefore changes both fields from `busyErrorState`. -/
theorem set_error_sole_coupling_counterexample :
    ¬ (∀ (s : AppState) (a : Action), (∀ p, a ≠ Action.SET_ERROR p) →
        (appReducer s a).error ≠ s.error →
        (appReducer s a).isLoading = s.isLoading) := by
  intro h
  have hne : ∀ p, Action.RESET_STATE ≠ Action.SET_ERROR p := by
    intro p hcontra
    exact Action.noConfusion hcontra
  have herr : (appReducer busyErrorState Action.RESET_STATE).error ≠
      busyErrorState.error := by decide
  have := h busyErrorState Action.RESET_STATE hne herr
  simp [appReducer, busyErrorState, initialState] at this

/-- Claim C1 (amended): dispatching SET_ERROR with any payload yields a
state whose `error` equals the payload and whose `isLoading` is false,
regardless of the prior loading value; and apart from SET_ERROR, the
only action that can change both `error` and `isLoading` in one step is
RESET_STATE (which replaces the entire state with the initial
defaults). -/
theorem set_error_couples_error_and_loading (s : AppState) (p : Option String)
    (a : Action) (hreset : a ≠ Action.RESET_STATE)
    (hset : ∀ q, a ≠ Action.SET_ERROR q)
    (hchange : (appReducer s a).error ≠ s.error) :
    (appReducer s (Action.SET_ERROR p)).error = p ∧
    (appReducer s (Action.SET_ERROR p)).isLoading = false ∧
    (appReducer s a).isLoading = s.isLoading := by
  refine ⟨by simp [appReducer], by simp [appReducer], ?_⟩
  cases a with
  | SET_ERROR q => exact absurd rfl (hset q)
  | RESET_STATE => exact absurd rfl hreset
  | SET_PDF_FILE q => simp [appReducer] at hchange
  | SET_PDF_DOCUMENT q => simp [appReducer] at hchange
  | SET_CURRENT_PAGE q => simp [appReducer] at hchange
  | SET_TOTAL_PAGES q => simp [appReducer] at hchange
  | ADD_CHAT_MESSAGE q => simp [appReducer] at hchange
  | SET_LOADING q => simp [appReducer] at hchange
  | SET_SESSION_ID q => simp [appReducer] at hchange
  | CLEAR_ERROR => simp [appReducer]
  | ADD_CITATION q => simp [appReducer] at hchange
  | CLEAR_CHAT => simp [appReducer]

/-- Claim C1 (witness for the amended theorem): instantiated at a state
holding an error, with CLEAR_ERROR as the other action. -/
theorem set_error_couples_error_and_loading_witness :
    (appReducer busyErrorState (Action.SET_ERROR (some "oops"))).error =
      some "oops" ∧
    (appReducer busyErrorState (Action.SET_ERROR (some "oops"))).isLoading =
      false ∧
    (appReducer busyErrorState Action.CLEAR_ERROR).isLoading =
      busyErrorState.isLoading :=
  set_error_couples_error_and_loading busyErrorState (some "oops")
    Action.CLEAR_ERROR (by intro h; exact Action.noConfusion h)
    (by intro q h; exact Action.noConfusion h)
    (by decide)

end NotebookLM

namespace NotebookLM

/-! ## HTTP gateway error normalization (src/services/api.js) -/

/-- JavaScript `a || b` on an optional string: an absent or empty string
is falsy and falls through to the default. -/
def jsOr (a : Option String) (b : String) : String :=
  match a with
  | some s => if s = "" then b else s
  | none => b

/-- The payload of a non-2xx response as seen by the interceptor:
`status` plus the optional `data.detail` / `data.message` fields. -/
structure HttpResponseInfo where
  status : Nat
  detail : Option String
  message : Option String
  deriving DecidableEq, Repr

/-- The rejected axios error object: `response` when the server answered
with a non-2xx status, `request` true when a request went out but no
response was received, and the error's own `message` string (empty
standing for an absent/empty message). -/
structure AxiosError where
  response : Option HttpResponseInfo
  request : Bool
  message : String
  deriving DecidableEq, Repr

/-- The `data?.detail || data?.message || 'An error occurred'` base
message of the response interceptor. -/
def responseBaseMessage (r : HttpResponseInfo) : String :=
  jsOr r.detail (jsOr r.message "An error occurred")

/-- The `switch (status)` of the response interceptor. -/
def switchStatusMessage (status : Nat) (message : String) : String :=
  if status = 400 then "Bad Request: " ++ message
  else if status = 401 then "Unauthorized access"
  else if status = 403 then "Access forbidden"
  else if status = 404 then "Resource not found"
  else if status = 429 then "Too many requests. Please try again later."
  else if status = 500 then "Internal server error. Please try again."
  else "Server error (" ++ toString status ++ "): " ++ message

/-- The response interceptor's rejection handler: every rejected call is
normalized to the single string carried by the thrown `Error`. -/
def normalizeApiError (error : AxiosError) : String :=
  match error.response with
  | some r => switchStatusMessage r.status (responseBaseMessage r)
  | none =>
      if error.request then
        "Unable to connect to server. Please check your connection."
      else if error.message = "" then "An unexpected error occurred"
      else error.message

/-- The `handleApiError(error, defaultMessage)` helper: the error's own
message when it has a truthy one, otherwise the caller-supplied
default. -/
def handleApiError (errorMessage : Option String) (defaultMessage : String) :
    String :=
  match errorMessage with
  | some m => if m = "" then defaultMessage else m
  | none => defaultMessage

/-! ## Claim C8 -/

/-- Claim C8: the gateway normalizes every rejected call by a fixed
mapping: 400 yields a message prefixed "Bad Request", 401
"Unauthorized access", 403 "Access forbidden", 404 exactly
"Resource not found", 429 a too-many-requests message, 500 an
internal-server-error message, any other status a generic
"Server error (code)" message, a request with no response yields the
"Unable to connect to server..." message, and any other failure yields
the underlying error's own message or the caller-supplied default. -/
theorem gateway_error_mapping (r : HttpResponseInfo) (req : Bool)
    (msg m d : String)
    (hother : r.status ≠ 400 ∧ r.status ≠ 401 ∧ r.status ≠ 403 ∧
      r.status ≠ 404 ∧ r.status ≠ 429 ∧ r.status ≠ 500)
    (hm : m ≠ "") :
    normalizeApiError ⟨some ⟨400, r.detail, r.message⟩, req, msg⟩ =
      "Bad Request: " ++ responseBaseMessage r ∧
    normalizeApiError ⟨some ⟨401, r.detail, r.message⟩, req, msg⟩ =
      "Unauthorized access" ∧
    normalizeApiError ⟨some ⟨403, r.detail, r.message⟩, req, msg⟩ =
      "Access forbidden" ∧
    normalizeApiError ⟨some ⟨404, r.detail, r.message⟩, req, msg⟩ =
      "Resource not found" ∧
    normalizeApiError ⟨some ⟨429, r.detail, r.message⟩, req, msg⟩ =
      "Too many requests. Please try again later." ∧
    normalizeApiError ⟨some ⟨500, r.detail, r.message⟩, req, msg⟩ =
      "Internal server error. Please try again." ∧
    normalizeApiError ⟨some r, req, msg⟩ =
      "Server error (" ++ toString r.status ++ "): " ++ responseBaseMessage r ∧
    normalizeApiError ⟨none, true, msg⟩ =
      "Unable to connect to server. Please check your connection." ∧
    handleApiError (some m) d = m ∧
    handleApiError none d = d := by
  obtain ⟨h400, h401, h403, h404, h429, h500⟩ := hother
  refine ⟨?_, ?_, ?_, ?_, ?_, ?_, ?_, ?_, ?_, ?_⟩ <;>
    simp [normalizeApiError, switchStatusMessage, responseBaseMessage,
      handleApiError, h400, h401, h403, h404, h429, h500, hm]

/-- Claim C8 (witness): a simulated 404 yields exactly
"Resource not found"; a 418 yields the generic server-error string; a
request with no response yields the unable-to-connect message. -/
theorem gateway_error_mapping_witness :
    normalizeApiError ⟨some ⟨404, none, none⟩, false, ""⟩ =
      "Resource not found" ∧
    normalizeApiError ⟨some ⟨418, none, none⟩, false, ""⟩ =
      "Server error (418): An error occurred" ∧
    normalizeApiError ⟨none, true, ""⟩ =
      "Unable to connect to server. Please check your connection." ∧
    handleApiError (some "boom") "fallback" = "boom" ∧
    handleApiError none "fallback" = "fallback" := by
  have h := gateway_error_mapping ⟨418, none, none⟩ false "" "boom" "fallback"
    (by decide) (by decide)
  exact ⟨h.2.2.2.1, h.2.2.2.2.2.2.1, h.2.2.2.2.2.2.2.1,
    h.2.2.2.2.2.2.2.2.1, h.2.2.2.2.2.2.2.2.2⟩

end NotebookLM

namespace NotebookLM

/-! ## Upload flow controller (FileUpload component) -/

structure UploadResponse where
  session_id : String
  message : String
  deriving DecidableEq, Repr

/-- The `validateFile` precondition check, first failure winning:
file present, then size, then MIME type. A thrown `Error(msg)` is
embedded as `Except.error msg`. -/
def validateFile (file : Option FileHandle) : Except String Bool :=
  match file with
  | none => .error "No file selected"
  | some f =>
      if f.size > MAX_FILE_SIZE then .error ERROR_MESSAGES.FILE_TOO_LARGE
      else if !(ALLOWED_FILE_TYPES.contains f.type) then
        .error ERROR_MESSAGES.INVALID_FILE_TYPE
      else .ok true

/-- Observable steps of `handleFileUpload`: the gateway upload call,
store dispatches, and the component-local `setIsUploading` /
`setUploadProgress` state setters. -/
inductive UploadEffect where
  | gatewayUpload (file : FileHandle)
  | dispatch (a : Action)
  | setUploading (b : Bool)
  | setProgress (n : Nat)
  deriving DecidableEq, Repr

/-- The `handleFileUpload(file)` callback of the FileUpload component,
as the sequence of effects it performs. `isLoading` (the global busy
flag) and `isUploading` (the component's own busy flag) are passed in to
model the ambient state the closure could read; the source body never
consults either one (there is no busy guard inside the function). The
interval-driven progress ticks between `setProgress 0` and the gateway
resolution are timer events and are not modelled; the trailing
`SET_LOADING false` / `setIsUploading(false)` / `setUploadProgress(0)`
on the success path fire after a fixed 500 ms settling delay. -/
def handleFileUpload (isLoading isUploading : Bool)
    (file : Option FileHandle)
    (gatewayResult : Except String UploadResponse) : List UploadEffect :=
  match validateFile file with
  | .error msg =>
      [ .dispatch (Action.SET_ERROR
          (some (handleApiError (some msg) ERROR_MESSAGES.UPLOAD_FAILED))),
        .setUploading false, .setProgress 0 ]
  | .ok _ =>
      match file with
      | none => []
      | some f =>
          [ .setUploading true, .setProgress 0,
            .dispatch Action.CLEAR_ERROR,
            .dispatch (Action.SET_LOADING true),
            .gatewayUpload f ] ++
          match gatewayResult with
          | .ok resp =>
              [ .setProgress 100,
                .dispatch (Action.SET_PDF_FILE (some f)),
                .dispatch (Action.SET_SESSION_ID (some resp.session_id)),
                .dispatch (Action.SET_LOADING false),
                .setUploading false, .setProgress 0 ]
          | .error e =>
              [ .dispatch (Action.SET_ERROR
                  (some (handleApiError (some e)
                    ERROR_MESSAGES.UPLOAD_FAILED))),
                .setUploading false, .setProgress 0 ]

/-- Does an upload-effect trace reach the gateway? -/
def uploadCallsGateway (effects : List UploadEffect) : Bool :=
  effects.any fun e =>
    match e with
    | .gatewayUpload _ => true
    | _ => false

/-- The store actions dispatched along an upload-effect trace. -/
def uploadDispatchedActions (effects : List UploadEffect) : List Action :=
  effects.filterMap fun e =>
    match e with
    | .dispatch a => some a
    | _ => none

/-- A well-formed 1 KB PDF file handle. -/
def samplePdfFile : FileHandle :=
  { name := "doc.pdf", size := 1024, type := "application/pdf",
    lastModified := 0 }

end NotebookLM

namespace NotebookLM

/-! ## Citation extraction (ChatInterface `extractCitations`) -/

/-- Whitespace as matched by the regex class `\s` (ASCII range plus the
no-break space). -/
def isJsSpace (c : Char) : Bool :=
  c = ' ' || c = '\t' || c = '\n' || c = '\r' || c = '\x0b' ||
  c = '\x0c' || c = ' '

/-- Decimal value of a digit string, as `parseInt` computes it on the
captured group `(\d+)`. -/
def digitsToNat (ds : List Char) : Nat :=
  ds.foldl (fun acc c => acc * 10 + (c.toNat - '0'.toNat)) 0

/-- The citation object pushed for one regex match, with `digits` the
captured group: `{page: parseInt(digits), text: "Page digits",
confidence: 0.9, type: 'page_reference'}`. -/
def pageCitation (digits : List Char) : Citation :=
  { page := some (digitsToNat digits)
    sectionLabel := none
    text := some ("Page " ++ String.mk digits)
    confidence := some ((9 : Rat) / 10)
    type := some "page_reference" }

/-- An anchored match of the pattern `\(Page\s+(\d+)\)` (flags `gi`) at
the head of the character list: on success, the captured digit group and
the characters following the match. -/
def matchPageAt : List Char → Option (List Char × List Char)
  | '(' :: c1 :: c2 :: c3 :: c4 :: rest =>
      if c1.toLower = 'p' && c2.toLower = 'a' && c3.toLower = 'g' &&
          c4.toLower = 'e' then
        let spaces := rest.takeWhile isJsSpace
        let afterSpaces := rest.dropWhile isJsSpace
        let digits := afterSpaces.takeWhile Char.isDigit
        let afterDigits := afterSpaces.dropWhile Char.isDigit
        if spaces.isEmpty || digits.isEmpty then none
        else
          match afterDigits with
          | ')' :: tail => some (digits, tail)
          | _ => none
      else none
  | _ => none

/-- The `regex.exec` scan loop: find the leftmost match, emit its
citation, continue after the match end. The fuel argument only bounds
the recursion; every step consumes at least one character, so the
initial fuel `l.length` is never exhausted. -/
def extractCitationsGo : Nat → List Char → List Citation
  | 0, _ => []
  | _ + 1, [] => []
  | fuel + 1, c :: cs =>
      match matchPageAt (c :: cs) with
      | some (digits, rest) => pageCitation digits :: extractCitationsGo fuel rest
      | none => extractCitationsGo fuel cs

/-- The `extractCitations(text)` helper of the ChatInterface component. -/
def extractCitations (text : String) : List Citation :=
  extractCitationsGo text.data.length text.data

/-- Every citation the scan emits carries confidence 0.9 and type
`page_reference`. -/
theorem extractCitationsGo_fields (fuel : Nat) :
    ∀ (l : List Char) (c : Citation), c ∈ extractCitationsGo fuel l →
      c.confidence = some ((9 : Rat) / 10) ∧
      c.type = some "page_reference" := by
  induction fuel with
  | zero =>
      intro l c h
      simp [extractCitationsGo] at h
  | succ n ih =>
      intro l c h
      match l with
      | [] => simp [extractCitationsGo] at h
      | x :: xs =>
          rw [extractCitationsGo] at h
          cases hm : matchPageAt (x :: xs) with
          | none =>
              rw [hm] at h
              exact ih xs c h
          | some p =>
              obtain ⟨digits, rest⟩ := p
              rw [hm] at h
              rcases List.mem_cons.mp h with rfl | hmem
              · exact ⟨rfl, rfl⟩
              · exact ih rest c hmem

/-! ## Chat flow controllers (ChatInterface / useChat) -/

/-- JavaScript truthiness of an optional string (`!sessionId`): absent
and empty strings are falsy. -/
def truthyStr : Option String → Bool
  | some s => s != ""
  | none => false

/-- The `/chat` endpoint's resolved payload:
`{response, citations?, token_usage?}`. -/
structure ChatResponse where
  response : String
  citations : Option (List Citation)
  token_usage : Option TokenUsage
  deriving DecidableEq, Repr

/-- Observable steps of the chat send paths: the input-box setter, store
dispatches, the typing-indicator setter, and the gateway call. -/
inductive ChatEffect where
  | setMessageInput (s : String)
  | dispatch (a : Action)
  | setTyping (b : Bool)
  | gatewaySendMessage (text : String) (sessionId : String)
  deriving DecidableEq, Repr

/-- The `handleSendMessage` callback of the ChatInterface component as
the sequence of effects it performs. `message` is the current input box
text, `now` the `Date.now()` reading, `nowIso` the ISO timestamp; the
fixed typing delay before the gateway call is timing only and not
modelled. The first line is the guard
`if (!message.trim() || !sessionId || isLoading) return`. -/
def chatHandleSendMessage (message : String) (sessionId : Option String)
    (isLoading : Bool) (now : Nat) (nowIso : String)
    (gatewayResult : Except String ChatResponse) : List ChatEffect :=
  if (message.trim == "") || !(truthyStr sessionId) || isLoading then []
  else
    match sessionId with
    | none => []
    | some sid =>
        let userMessage := message.trim
        let userChatMessage : ChatMessage :=
          { id := now, type := MESSAGE_TYPES.USER, content := userMessage,
            citations := none, timestamp := nowIso, tokenUsage := none }
        [ .setMessageInput "",
          .dispatch (Action.ADD_CHAT_MESSAGE userChatMessage),
          .dispatch Action.CLEAR_ERROR,
          .setTyping true,
          .gatewaySendMessage userMessage sid ] ++
        match gatewayResult with
        | .ok response =>
            let extracted := extractCitations response.response
            let aiChatMessage : ChatMessage :=
              { id := now + 1, type := MESSAGE_TYPES.ASSISTANT,
                content := response.response,
                citations := some ((response.citations.getD []) ++ extracted),
                timestamp := nowIso, tokenUsage := response.token_usage }
            [ .setTyping false,
              .dispatch (Action.ADD_CHAT_MESSAGE aiChatMessage) ]
        | .error e =>
            [ .setTyping false,
              .dispatch (Action.ADD_CHAT_MESSAGE
                { id := now + 1, type := MESSAGE_TYPES.ERROR,
                  content := handleApiError (some e) ERROR_MESSAGES.CHAT_FAILED,
                  citations := none, timestamp := nowIso,
                  tokenUsage := none }) ]

/-- The value `useChat().sendMessage` resolves to. -/
inductive SendResult where
  | success (response : ChatMessage) (citations : Option (List Citation))
  | failure (error : String)
  deriving DecidableEq, Repr

/-- The `sendMessage` function of the `useChat` hook: the effects it
performs paired with its return value. The guard is
`if (!message.trim() || !sessionId || isLoading) return {success: false,
error: 'Invalid message or session'}`. -/
def useChatSendMessage (message : String) (sessionId : Option String)
    (isLoading : Bool) (now : Nat) (nowIso : String)
    (gatewayResult : Except String ChatResponse) :
    List ChatEffect × SendResult :=
  if (message.trim == "") || !(truthyStr sessionId) || isLoading then
    ([], .failure "Invalid message or session")
  else
    match sessionId with
    | none => ([], .failure "Invalid message or session")
    | some sid =>
        let userMessage : ChatMessage :=
          { id := now, type := MESSAGE_TYPES.USER, content := message.trim,
            citations := none, timestamp := nowIso, tokenUsage := none }
        let pre : List ChatEffect :=
          [ .dispatch (Action.ADD_CHAT_MESSAGE userMessage),
            .dispatch Action.CLEAR_ERROR,
            .dispatch (Action.SET_LOADING true),
            .gatewaySendMessage message.trim sid ]
        match gatewayResult with
        | .ok response =>
            let aiMessage : ChatMessage :=
              { id := now + 1, type := MESSAGE_TYPES.ASSISTANT,
                content := response.response,
                citations := some (response.citations.getD []),
                timestamp := nowIso, tokenUsage := response.token_usage }
            (pre ++
              [ .dispatch (Action.ADD_CHAT_MESSAGE aiMessage),
                .dispatch (Action.SET_LOADING false) ] ++
              (response.citations.getD []).map
                (fun c => .dispatch (Action.ADD_CITATION c)),
              .success aiMessage response.citations)
        | .error e =>
            let errorMessage :=
              handleApiError (some e) ERROR_MESSAGES.CHAT_FAILED
            (pre ++
              [ .dispatch (Action.ADD_CHAT_MESSAGE
                  { id := now + 1, type := MESSAGE_TYPES.ERROR,
                    content := errorMessage, citations := none,
                    timestamp := nowIso, tokenUsage := none }),
                .dispatch (Action.SET_LOADING false) ],
              .failure errorMessage)

end NotebookLM

namespace NotebookLM

/-! ## Claim C2 -/

/-- Claim C2 (counterexample): calling the upload controller's
`handleFileUpload` with a valid file while both the global `isLoading`
flag and the local `isUploading` flag are true still reaches the
gateway and still dispatches actions — the function body contains no
busy guard. -/
theorem busy_guard_counterexample :
    uploadCallsGateway (handleFileUpload true true (some samplePdfFile)
      (.ok { session_id := "s1", message := "ok" })) = true ∧
    uploadDispatchedActions (handleFileUpload true true (some samplePdfFile)
      (.ok { session_id := "s1", message := "ok" })) ≠ [] := by
  decide

/-- Claim C2 (amended): the chat controller's send functions refuse to
start while `isLoading` is true — both return without invoking the
gateway and without dispatching any action (the hook additionally
returns the failure result) — but the upload controller's
`handleFileUpload` contains no such check: its behaviour is identical
for every value of the `isLoading` and `isUploading` flags, busy or
not (upload concurrency is prevented only by the view disabling its
entry points while uploading). -/
theorem chat_refuses_busy_upload_unguarded (message : String)
    (sessionId : Option String) (now : Nat) (nowIso : String)
    (gw : Except String ChatResponse) (b1 b2 b1' b2' : Bool)
    (file : Option FileHandle) (ugw : Except String UploadResponse) :
    chatHandleSendMessage message sessionId true now nowIso gw = [] ∧
    useChatSendMessage message sessionId true now nowIso gw =
      ([], .failure "Invalid message or session") ∧
    handleFileUpload b1 b2 file ugw = handleFileUpload b1' b2' file ugw := by
  refine ⟨?_, ?_, rfl⟩ <;>
    simp [chatHandleSendMessage, useChatSendMessage]

/-! ## Claim C4 -/

/-- Claim C4: upload validation checks preconditions in order with
first failure winning — a missing file fails with the no-file message,
then a file over 10 MiB fails with the file-too-large message (whatever
its MIME type), then a non-PDF MIME type fails with the
invalid-file-type message — and on every validation failure the
controller makes no gateway call and commits neither a file nor a
session to the store (the only dispatch is SET_ERROR). -/
theorem upload_validation_order_and_no_commit (f : FileHandle)
    (file : Option FileHandle) (msg : String) (isL isU : Bool)
    (gw : Except String UploadResponse) :
    validateFile none = .error "No file selected" ∧
    (f.size > MAX_FILE_SIZE →
      validateFile (some f) = .error ERROR_MESSAGES.FILE_TOO_LARGE) ∧
    (f.size ≤ MAX_FILE_SIZE → ALLOWED_FILE_TYPES.contains f.type = false →
      validateFile (some f) = .error ERROR_MESSAGES.INVALID_FILE_TYPE) ∧
    (validateFile file = .error msg →
      handleFileUpload isL isU file gw =
        [ .dispatch (Action.SET_ERROR (some (handleApiError (some msg)
            ERROR_MESSAGES.UPLOAD_FAILED))),
          .setUploading false, .setProgress 0 ] ∧
      uploadCallsGateway (handleFileUpload isL isU file gw) = false ∧
      ∀ a ∈ uploadDispatchedActions (handleFileUpload isL isU file gw),
        (∀ pf, a ≠ Action.SET_PDF_FILE pf) ∧
        (∀ sid, a ≠ Action.SET_SESSION_ID sid)) := by
  refine ⟨rfl, ?_, ?_, ?_⟩
  · intro hbig
    simp [validateFile, hbig]
  · intro hsize htype
    simp only [validateFile]
    rw [if_neg (Nat.not_lt.mpr hsize), htype]
    simp
  · intro herr
    refine ⟨?_, ?_, ?_⟩
    · simp [handleFileUpload, herr]
    · simp [handleFileUpload, herr, uploadCallsGateway]
    · intro a ha
      simp [handleFileUpload, herr, uploadDispatchedActions] at ha
      subst ha
      exact ⟨fun pf h => Action.noConfusion h,
        fun sid h => Action.noConfusion h⟩

/-- A 15 MB file with a PDF MIME type (over the 10 MiB bound). -/
def bigPdfFile : FileHandle :=
  { name := "big.pdf", size := 15 * 1024 * 1024, type := "application/pdf",
    lastModified := 0 }

/-- A small file whose MIME type is `text/plain`. -/
def textFile : FileHandle :=
  { name := "notes.txt", size := 1024, type := "text/plain",
    lastModified := 0 }

/-- Claim C4 (witness): the 15 MB file is rejected with the
file-too-large message, the `text/plain` file with the
invalid-file-type message, and for the latter the controller performs
no gateway call. -/
theorem upload_validation_witness :
    validateFile (some bigPdfFile) = .error ERROR_MESSAGES.FILE_TOO_LARGE ∧
    validateFile (some textFile) = .error ERROR_MESSAGES.INVALID_FILE_TYPE ∧
    uploadCallsGateway (handleFileUpload false false (some textFile)
      (.ok { session_id := "s1", message := "ok" })) = false := by
  have h := upload_validation_order_and_no_commit bigPdfFile (some textFile)
    ERROR_MESSAGES.INVALID_FILE_TYPE false false
    (.ok { session_id := "s1", message := "ok" })
  have htxt := upload_validation_order_and_no_commit textFile (some textFile)
    ERROR_MESSAGES.INVALID_FILE_TYPE false false
    (.ok { session_id := "s1", message := "ok" })
  refine ⟨h.2.1 (by decide), htxt.2.2.1 (by decide) (by decide), ?_⟩
  exact (h.2.2.2 (htxt.2.2.1 (by decide) (by decide))).2.1

/-! ## Claim C5 -/

/-- Claim C5: chat send is a no-op whenever the message text is empty
or whitespace-only, or `sessionId` is unset, or a request is already in
flight: the component handler performs no effects at all, and the hook
performs no effects and returns the failure result — in particular when
`sessionId` is unset even if the text is valid and non-empty. -/
theorem chat_send_noop_on_guard (message : String) (sessionId : Option String)
    (isLoading : Bool) (now : Nat) (nowIso : String)
    (gw : Except String ChatResponse)
    (h : message.trim = "" ∨ sessionId = none ∨ isLoading = true) :
    chatHandleSendMessage message sessionId isLoading now nowIso gw = [] ∧
    useChatSendMessage message sessionId isLoading now nowIso gw =
      ([], .failure "Invalid message or session") := by
  have hguard :
      ((message.trim == "") || !(truthyStr sessionId) || isLoading) = true := by
    rcases h with h | h | h
    · simp [h]
    · simp [h, truthyStr]
    · simp [h]
  constructor <;> simp [chatHandleSendMessage, useChatSendMessage, hguard]

/-- Claim C5 (witness): a valid non-empty question with no session is
rejected without side effects by both send paths. -/
theorem chat_send_noop_on_guard_witness :
    ((none : Option String) = none) ∧
    chatHandleSendMessage "What is this about?" none false 0 "t"
      (.error "unused") = [] ∧
    useChatSendMessage "What is this about?" none false 0 "t"
      (.error "unused") = ([], .failure "Invalid message or session") := by
  have h := chat_send_noop_on_guard "What is this about?" none false 0 "t"
    (.error "unused") (Or.inr (Or.inl rfl))
  exact ⟨rfl, h.1, h.2⟩

/-! ## Claim C6 -/

/-- Claim C6: citation extraction scans the reply text for the pattern
"(Page N)" case-insensitively; every match yields a citation with the
parsed page number, type `page_reference` and confidence exactly 0.9,
and on "See (Page 5) and (page 12)" it yields exactly two citations
with pages 5 and 12 in that order. -/
theorem extract_citations_pattern (text : String) (c : Citation)
    (h : c ∈ extractCitations text) :
    (extractCitations "See (Page 5) and (page 12)").map (fun x => x.page) =
      [some 5, some 12] ∧
    (extractCitations "See (Page 5) and (page 12)").length = 2 ∧
    c.confidence = some ((9 : Rat) / 10) ∧
    c.type = some "page_reference" := by
  have hc := extractCitationsGo_fields text.data.length text.data c h
  exact ⟨by decide, by decide, hc.1, hc.2⟩

/-- Claim C6 (witness): instantiated with the first citation extracted
from the example text. -/
theorem extract_citations_pattern_witness :
    (extractCitations "See (Page 5) and (page 12)").map (fun x => x.page) =
      [some 5, some 12] ∧
    (pageCitation ['5']).confidence = some ((9 : Rat) / 10) := by
  have hmem : pageCitation ['5'] ∈
      extractCitations "See (Page 5) and (page 12)" := by
    rw [show extractCitations "See (Page 5) and (page 12)" =
      [pageCitation ['5'], pageCitation ['1', '2']] from rfl]
    exact List.mem_cons_self _ _
  have h := extract_citations_pattern "See (Page 5) and (page 12)"
    (pageCitation ['5']) hmem
  exact ⟨h.1, h.2.2.1⟩

end NotebookLM

namespace NotebookLM

/-! ## Render-time citation deduplication (ChatInterface `renderMessage`)

The render path computes
`Array.from(new Map(msg.citations.map(c => [c.page, c])).values())`.
A JavaScript `Map` keeps keys in first-insertion order and `set` on an
existing key overwrites the value in place, so the `Map` is modelled as
an association list with exactly that update rule. -/

/-- `Map.set`: overwrite in place when the key exists, append
otherwise. -/
def mapSet (entries : List (Option Nat × Citation)) (key : Option Nat)
    (value : Citation) : List (Option Nat × Citation) :=
  if entries.any (fun kv => kv.1 == key) then
    entries.map (fun kv => if kv.1 == key then (key, value) else kv)
  else entries ++ [(key, value)]

/-- `new Map(citations.map(c => [c.page, c]))`. -/
def citationMap (cs : List Citation) : List (Option Nat × Citation) :=
  cs.foldl (fun m c => mapSet m c.page c) []

/-- The deduplicated citation list handed to the chip renderer
(`Array.from(map.values())`). -/
def dedupeCitations (cs : List Citation) : List Citation :=
  (citationMap cs).map Prod.snd

/-- Overwriting an existing key in place never changes how many entries
carry any given key. -/
theorem countP_mapUpdate (m : List (Option Nat × Citation))
    (kNew k : Option Nat) (v : Citation) :
    (m.map (fun kv => if kv.1 == kNew then (kNew, v) else kv)).countP
      (fun kv => kv.1 == k) = m.countP (fun kv => kv.1 == k) := by
  induction m with
  | nil => rfl
  | cons kv m ih =>
      rw [List.map_cons, List.countP_cons, List.countP_cons, ih]
      congr 1
      by_cases hk : (kv.1 == kNew) = true
      · rw [if_pos hk, eq_of_beq hk]
      · rw [if_neg hk]

/-- `mapSet` preserves the invariant that every key occurs at most
once. -/
theorem mapSet_key_count (m : List (Option Nat × Citation))
    (kNew : Option Nat) (v : Citation) (k : Option Nat)
    (h : m.countP (fun kv => kv.1 == k) ≤ 1) :
    (mapSet m kNew v).countP (fun kv => kv.1 == k) ≤ 1 := by
  unfold mapSet
  by_cases hany : (m.any (fun kv => kv.1 == kNew)) = true
  · rw [if_pos hany, countP_mapUpdate]
    exact h
  · rw [if_neg hany, List.countP_append]
    by_cases hkk : (kNew == k) = true
    · have hkeq : kNew = k := eq_of_beq hkk
      subst hkeq
      have hzero : m.countP (fun kv => kv.1 == kNew) = 0 := by
        rw [List.countP_eq_zero]
        intro kv hkv hbeq
        exact (List.any_eq_false.mp (Bool.not_eq_true _ |>.mp hany) kv hkv) hbeq
      simp [List.countP_cons, hzero, hkk]
    · have hone : List.countP (fun kv => kv.1 == k) [(kNew, v)] = 0 := by
        simp [List.countP_cons, hkk]
      rw [hone, Nat.add_zero]
      exact h

/-- Every key occurs at most once in the finished citation map. -/
theorem citationMap_key_count (cs : List Citation) (k : Option Nat) :
    ∀ m : List (Option Nat × Citation),
      m.countP (fun kv => kv.1 == k) ≤ 1 →
      (cs.foldl (fun m c => mapSet m c.page c) m).countP
        (fun kv => kv.1 == k) ≤ 1 := by
  induction cs with
  | nil => intro m h; exact h
  | cons c cs ih =>
      intro m h
      exact ih (mapSet m c.page c) (mapSet_key_count m c.page c k h)

/-- Every entry of the citation map keys its value by the value's own
`page` field. -/
theorem citationMap_fst_eq_page (cs : List Citation) :
    ∀ m : List (Option Nat × Citation),
      (∀ kv ∈ m, kv.1 = kv.2.page) →
      ∀ kv ∈ cs.foldl (fun m c => mapSet m c.page c) m, kv.1 = kv.2.page := by
  induction cs with
  | nil => intro m h; exact h
  | cons c cs ih =>
      intro m h
      refine ih (mapSet m c.page c) ?_
      intro kv hkv
      unfold mapSet at hkv
      by_cases hany : (m.any (fun kv => kv.1 == c.page)) = true
      · rw [if_pos hany] at hkv
        obtain ⟨kv0, hkv0, heq⟩ := List.mem_map.mp hkv
        by_cases hk : (kv0.1 == c.page) = true
        · rw [if_pos hk] at heq
          subst heq
          rfl
        · rw [if_neg hk] at heq
          subst heq
          exact h kv0 hkv0
      · rw [if_neg hany] at hkv
        rcases List.mem_append.mp hkv with h1 | h2
        · exact h kv h1
        · rw [List.mem_singleton.mp h2]

/-- At most one rendered chip can come from citations with no `page`
field, whatever the stored list holds. -/
theorem dedupe_pageless_le_one (cs : List Citation) :
    (dedupeCitations cs).countP
      (fun c => c.page == (none : Option Nat)) ≤ 1 := by
  unfold dedupeCitations citationMap
  rw [List.countP_map]
  have hinv := citationMap_fst_eq_page cs [] (by intro kv hkv; cases hkv)
  have hcount := citationMap_key_count cs none [] (by simp)
  calc (cs.foldl (fun m c => mapSet m c.page c) []).countP
        ((fun c => c.page == (none : Option Nat)) ∘ Prod.snd)
      = (cs.foldl (fun m c => mapSet m c.page c) []).countP
        (fun kv => kv.1 == (none : Option Nat)) := by
        apply List.countP_congr
        intro kv hkv
        simp only [Function.comp]
        rw [hinv kv hkv]
    _ ≤ 1 := hcount

end NotebookLM

namespace NotebookLM

/-! ## Claim C7 -/

/-- The claim's stored citation list `[{page:3},{page:3},{page:7}]`. -/
def storedCitations : List Citation :=
  [ { page := some 3, sectionLabel := none, text := none, confidence := none,
      type := none },
    { page := some 3, sectionLabel := none, text := none, confidence := none,
      type := none },
    { page := some 7, sectionLabel := none, text := none, confidence := none,
      type := none } ]

/-- Two distinguishable page-3 citations and a page-7 citation, to
exhibit the last-one-wins value choice. -/
def labelledCitations : List Citation :=
  [ { page := some 3, sectionLabel := none, text := some "a",
      confidence := none, type := none },
    { page := some 3, sectionLabel := none, text := some "b",
      confidence := none, type := none },
    { page := some 7, sectionLabel := none, text := none, confidence := none,
      type := none } ]

/-- Claim C7: render-time deduplication groups citations under a map
keyed by page with last-one-wins per page, preserving first-seen order
of distinct pages: for the stored list `[{page:3},{page:3},{page:7}]`
exactly 2 chips are rendered in page order [3, 7], the stored list
itself still holds all 3 entries, and for two distinguishable page-3
citations the later one supplies the rendered value while keeping the
first-seen position. -/
theorem render_dedup_chips :
    (dedupeCitations storedCitations).length = 2 ∧
    (dedupeCitations storedCitations).map (fun c => c.page) =
      [some 3, some 7] ∧
    storedCitations.length = 3 ∧
    dedupeCitations labelledCitations =
      [ { page := some 3, sectionLabel := none, text := some "b",
          confidence := none, type := none },
        { page := some 7, sectionLabel := none, text := none,
          confidence := none, type := none } ] := by
  decide

/-! ## Claim C9 -/

/-- Claim C9: the render-time map is keyed by the `page` field, so
every citation lacking a page shares the single key `undefined`: for
any citation list containing two or more pageless citations, at most
one chip is rendered for all of them. -/
theorem pageless_citations_collapse (cs : List Citation)
    (h : 2 ≤ cs.countP (fun c => c.page == (none : Option Nat))) :
    (dedupeCitations cs).countP
      (fun c => c.page == (none : Option Nat)) ≤ 1 :=
  dedupe_pageless_le_one cs

/-- Two distinct citations with no page field. -/
def pagelessCitations : List Citation :=
  [ { page := none, sectionLabel := none, text := some "a",
      confidence := none, type := none },
    { page := none, sectionLabel := none, text := some "b",
      confidence := none, type := none } ]

/-- Claim C9 (witness): two pageless citations render as at most one
chip. -/
theorem pageless_citations_collapse_witness :
    2 ≤ pagelessCitations.countP
      (fun c => c.page == (none : Option Nat)) ∧
    (dedupeCitations pagelessCitations).countP
      (fun c => c.page == (none : Option Nat)) ≤ 1 :=
  ⟨by decide, pageless_citations_collapse pagelessCitations (by decide)⟩

/-! ## Citation-click navigation (CitationLink component) -/

/-- JavaScript truthiness of the optional `page` field
(`if (citation.page)`): absent and `0` are falsy. -/
def truthyPage : Option Nat → Bool
  | some p => p != 0
  | none => false

/-- Observable steps of `handleCitationClick`: the store dispatch, the
`navigateToPage` CustomEvent for the PDF viewer, and the deferred
scroll-into-view. -/
inductive ClickEffect where
  | dispatchAction (a : Action)
  | navigateToPageEvent (page : Nat)
  | scrollViewerIntoView
  deriving DecidableEq, Repr

/-- The `handleCitationClick` callback of the CitationLink component:
when `citation.page` is truthy it dispatches SET_CURRENT_PAGE with that
page (no comparison against `totalPages` anywhere), fires the
`navigateToPage` event and scrolls the viewer; otherwise it does
nothing. -/
def handleCitationClick (citation : Citation) : List ClickEffect :=
  if truthyPage citation.page then
    [ .dispatchAction (Action.SET_CURRENT_PAGE (citation.page.getD 0)),
      .navigateToPageEvent (citation.page.getD 0),
      .scrollViewerIntoView ]
  else []

/-- The `getCitationText` display-label helper: page label when `page`
is truthy, then the section text when truthy, then the positional
"Source N" label. -/
def getCitationText (citation : Citation) (index : Nat) : String :=
  if truthyPage citation.page then
    "Page " ++ toString (citation.page.getD 0)
  else if truthyStr citation.sectionLabel then
    citation.sectionLabel.getD ""
  else "Source " ++ toString (index + 1)

/-! ## Claim C10 -/

/-- Claim C10: citation-click navigation performs no upper-bound check:
for every citation with a truthy page `p`, the click dispatches
SET_CURRENT_PAGE p — the reducer then stores `p` as `currentPage`
while `totalPages` is untouched, whatever its value — and for every
citation whose page is absent or zero the click performs no effects at
all, even if the citation has a section. -/
theorem citation_click_unchecked_navigation (c c0 : Citation) (s : AppState)
    (p : Nat) (hp : c.page = some p) (hnz : p ≠ 0)
    (h0 : c0.page = none ∨ c0.page = some 0) :
    handleCitationClick c =
      [ ClickEffect.dispatchAction (Action.SET_CURRENT_PAGE p),
        ClickEffect.navigateToPageEvent p,
        ClickEffect.scrollViewerIntoView ] ∧
    (appReducer s (Action.SET_CURRENT_PAGE p)).currentPage = p ∧
    (appReducer s (Action.SET_CURRENT_PAGE p)).totalPages = s.totalPages ∧
    handleCitationClick c0 = [] := by
  refine ⟨?_, by simp [appReducer], by simp [appReducer], ?_⟩
  · simp [handleCitationClick, truthyPage, hp, hnz]
  · rcases h0 with h0 | h0 <;> simp [handleCitationClick, truthyPage, h0]

/-- A citation pointing at page 99 of a 5-page document. -/
def pageNinetyNine : Citation :=
  { page := some 99, sectionLabel := none, text := none, confidence := none,
    type := none }

/-- A citation with no page but with a section label. -/
def sectionOnlyCitation : Citation :=
  { page := none, sectionLabel := some "Introduction", text := none,
    confidence := none, type := none }

/-- A state whose document has 5 pages. -/
def fivePageState : AppState := { initialState with totalPages := 5 }

/-- Claim C10 (witness): clicking a page-99 citation in a 5-page
document stores `currentPage = 99 > totalPages = 5`; clicking a
pageless citation that has a section performs nothing. -/
theorem citation_click_unchecked_navigation_witness :
    handleCitationClick pageNinetyNine =
      [ ClickEffect.dispatchAction (Action.SET_CURRENT_PAGE 99),
        ClickEffect.navigateToPageEvent 99,
        ClickEffect.scrollViewerIntoView ] ∧
    (appReducer fivePageState (Action.SET_CURRENT_PAGE 99)).currentPage = 99 ∧
    (appReducer fivePageState (Action.SET_CURRENT_PAGE 99)).totalPages <
      (appReducer fivePageState (Action.SET_CURRENT_PAGE 99)).currentPage ∧
    handleCitationClick sectionOnlyCitation = [] := by
  have h := citation_click_unchecked_navigation pageNinetyNine
    sectionOnlyCitation fivePageState 99 rfl (by decide) (Or.inl rfl)
  refine ⟨h.1, h.2.1, ?_, h.2.2.2⟩
  rw [h.2.1, h.2.2.1]
  decide

end NotebookLM
